import Mathlib

/-!
# Verification of the `broadcaster` websocket registry

Shallow embedding of `src/server.ts` (`createSocketGroup`: `addSocket`,
`getSocket`, `removeSocket`, `setHandlersForSocket`, `send`, `broadcast`)
and `src/client.ts` (`connect`: `send`, `setHandlersForSocket`, and the
installed `onmessage` dispatch).

JavaScript runtime facilities that the code calls but does not define
(`JSON.stringify`, `JSON.parse`, `WebSocket.send`/`close`) are modelled
explicitly: values are a small JSON-value type with a non-serializable
constructor (`bigintVal`, standing for the values `JSON.stringify` throws
on); the outcome of `JSON.parse` on an incoming frame is an input to the
dispatch function (`ParseOutcome`); side effects on the outside world
(socket writes, closes, console logging, handler invocation) are recorded
as an explicit event list; a thrown exception is an `Option JSError`
result component.
-/

namespace Broadcaster

/-- A JavaScript runtime value as far as the JSON codec is concerned.
`bigintVal` stands for the values that `JSON.stringify` cannot represent
and throws a `TypeError` on (BigInt being the canonical example). -/
inductive JSValue where
  | null
  | bool (b : Bool)
  | num (n : Int)
  | str (s : String)
  | bigintVal (n : Int)
  | obj (fields : List (String × JSValue))
deriving Repr

/-- JavaScript truthiness test, as used by `if (!eventData) return;`. -/
def JSValue.isFalsy : JSValue → Bool
  | .null => true
  | .bool b => !b
  | .num n => n == 0
  | .str s => s == ""
  | .bigintVal n => n == 0
  | .obj _ => false

/-- Property lookup `v[name]`: `some` the field of an object, `none` for
`undefined` (absent field, or property access on a non-object value that
yields `undefined`). -/
def JSValue.getField : JSValue → String → Option JSValue
  | .obj fields, name => lookupField fields name
  | _, _ => none
where
  lookupField : List (String × JSValue) → String → Option JSValue
    | [], _ => none
    | (k, v) :: rest, name => if k = name then some v else lookupField rest name

mutual
/-- `JSON.stringify`: `none` models the thrown `TypeError` on a
non-representable value, `some` the produced text. -/
def stringify : JSValue → Option String
  | .null => some "null"
  | .bool true => some "true"
  | .bool false => some "false"
  | .num n => some (toString n)
  | .str s => some ("\"" ++ s ++ "\"")
  | .bigintVal _ => none
  | .obj fields =>
    match stringifyFields fields with
    | none => none
    | some body => some ("\x7b" ++ body ++ "\x7d")

/-- Serialize the field list of an object; fails as soon as one field
value is non-representable. -/
def stringifyFields : List (String × JSValue) → Option String
  | [] => some ""
  | (k, v) :: rest =>
    match stringify v with
    | none => none
    | some sv =>
      match stringifyFields rest with
      | none => none
      | some srest => some ("\"" ++ k ++ "\":" ++ sv ++ "," ++ srest)
end

/-- The exceptions the embedded code can raise. `typeError` models both
`JSON.stringify` throwing on a non-representable value and a property
access on `undefined`; `invalidState` models `WebSocket.send` raising. -/
inductive JSError where
  | typeError
  | invalidState
deriving DecidableEq, Repr

/-- One registered websocket: its identity and whether the external
transport's `send` raises for it (e.g. because the peer vanished). -/
structure Socket where
  id : Nat
  sendRaises : Bool
deriving DecidableEq, Repr

/-- Observable side effects on the outside world, in order. -/
inductive Event where
  /-- `socket.close()` was called on the socket with this id. -/
  | closed (id : Nat)
  /-- `socket.send(payload)` completed on the socket with this id. -/
  | wsSend (id : Nat) (payload : String)
  /-- `console.error(msg, e)`. -/
  | logged (msg : String)
  /-- A server-side handler was invoked: `handler(eventData.data, key, group)`. -/
  | handlerInvoked (tag : String) (data : Option JSValue) (sockKey : String)
  /-- A client-side handler was invoked: `handler(data, clientSocket)`. -/
  | clientHandlerInvoked (tag : String) (data : Option JSValue)
  /-- A host lifecycle callback (`opts.onClose(key)` etc.) fired. -/
  | hostOnClose (key : String)

/-- The registry's `_sockets` object: key → socket, keys unique,
insertion order preserved (JS string-keyed object semantics). -/
abbrev GroupState := List (String × Socket)

/-- `_sockets[k]` read. -/
def lookupEntry : GroupState → String → Option Socket
  | [], _ => none
  | (k1, s) :: rest, k => if k1 = k then some s else lookupEntry rest k

/-- `_sockets[key] = socket`: overwrite in place if the key exists
(JS keeps the original insertion position), append otherwise. -/
def insertEntry : GroupState → String → Socket → GroupState
  | [], k, s => [(k, s)]
  | (k1, s1) :: rest, k, s =>
    if k1 = k then (k, s) :: rest else (k1, s1) :: insertEntry rest k s

/-- `delete _sockets[k]`. -/
def eraseEntry : GroupState → String → GroupState
  | [], _ => []
  | (k1, s1) :: rest, k =>
    if k1 = k then eraseEntry rest k else (k1, s1) :: eraseEntry rest k

/-- The optional lifecycle callbacks handed to `createSocketGroup`;
only their presence matters to the registry's own control flow. -/
structure CreateSocketOpts where
  onOpen : Bool
  onClose : Bool
  onError : Bool

/-- `getSocket`: `const socket = _sockets[k]; if (!socket) return null;
return socket;` — a lookup with no state change. -/
def getSocket (g : GroupState) (k : String) : Option Socket :=
  match lookupEntry g k with
  | none => none
  | some s => some s

/-- `removeSocket`: if the key is present, `socket.close()` then
`delete _sockets[k]`; otherwise nothing happens. Returns the new state
and the emitted events. -/
def removeSocket (g : GroupState) (k : String) : GroupState × List Event :=
  match lookupEntry g k with
  | none => (g, [])
  | some s => (eraseEntry g k, [Event.closed s.id])

/-- `addSocket`: upgrades the request to a websocket (the new socket is
the `sock` argument, handed over by the external
`Deno.upgradeWebSocket`), installs lifecycle callbacks, and — only when
an `onError` callback was configured — calls `group.removeSocket(key)`
before storing, then stores `_sockets[key] = socket`. -/
def addSocket (opts : CreateSocketOpts) (g : GroupState) (k : String)
    (sock : Socket) : GroupState × List Event :=
  let (g1, evs) := if opts.onError then removeSocket g k else (g, [])
  (insertEntry g1 k sock, evs)

/-- The `socket.onclose` callback installed by `addSocket` when an
`onClose` callback was configured: `group.removeSocket(key);
opts.onClose(key);`. When no `onClose` callback was given the socket has
no `onclose` handler and the close notification does nothing. -/
def oncloseNotification (opts : CreateSocketOpts) (g : GroupState)
    (k : String) : GroupState × List Event :=
  if opts.onClose then
    let (g1, evs) := removeSocket g k
    (g1, evs ++ [Event.hostOnClose k])
  else (g, [])

/-- `send(key, message)`: look up the socket; silently return when
absent; otherwise `socket.send(JSON.stringify(message))`. The second
component is the exception propagating out of `send`, if any. -/
def groupSend (g : GroupState) (k : String) (msg : JSValue) :
    List Event × Option JSError :=
  match lookupEntry g k with
  | none => ([], none)
  | some s =>
    match stringify msg with
    | none => ([], some JSError.typeError)
    | some str =>
      if s.sendRaises then ([], some JSError.invalidState)
      else ([Event.wsSend s.id str], none)

/-- The body of `broadcast`'s loop over `Object.values(_sockets)`:
`socket.send(JSON.stringify(message))` per socket, with no exception
handling — a raise aborts the loop, keeping the sends already made. -/
def broadcastLoop (sockets : List Socket) (msg : JSValue) :
    List Event × Option JSError :=
  match sockets with
  | [] => ([], none)
  | s :: rest =>
    match stringify msg with
    | none => ([], some JSError.typeError)
    | some str =>
      if s.sendRaises then ([], some JSError.invalidState)
      else
        let (evs, err) := broadcastLoop rest msg
        (Event.wsSend s.id str :: evs, err)

/-- `broadcast(message)`: iterate `Object.values(_sockets)` in insertion
order, sending the serialized message to each. -/
def broadcast (g : GroupState) (msg : JSValue) : List Event × Option JSError :=
  broadcastLoop (g.map Prod.snd) msg

/-- The handler table: the set of message keys that have a handler
bound. Invoking a handler is recorded as an event; the handlers' own
behavior is outside the dispatch code being verified. -/
abbrev HandlerTable := List String

/-- The `console.error` text of the shared `JSON.parse` catch block. -/
def parseErrorLog (raw : String) : String :=
  "Could not parse event data: " ++ raw ++
    ". data sent in message MUST be JSON serializable"

/-- The `console.error` text of the client `send` catch block. -/
def serializeErrorLog : String :=
  "Could not serialize event Message. Message MUST be JSON serializable"

/-- The outcome of `JSON.parse(event.data)` on an inbound frame:
either it throws (malformed text, carried for the log message) or it
yields a value. -/
inductive ParseOutcome where
  | malformed (raw : String)
  | parsed (v : JSValue)

/-- The `socket.onmessage` closure installed by the server's
`setHandlersForSocket`: parse (catch → log and return), drop falsy
values, look up `handlers[eventData.key]`, return if absent, else invoke
`handler(eventData.data, key, group)`. -/
def serverOnMessage (handlers : HandlerTable) (sockKey : String)
    (ev : ParseOutcome) : List Event :=
  match ev with
  | .malformed raw => [Event.logged (parseErrorLog raw)]
  | .parsed v =>
    if v.isFalsy then []
    else
      match v.getField "key" with
      | some (.str tag) =>
        if tag ∈ handlers then
          [Event.handlerInvoked tag (v.getField "data") sockKey]
        else []
      | _ => []

/-- The client's state: the underlying `WebSocket` and the `_handlers`
variable, which is `undefined` (`none`) until `setHandlersForSocket`
first runs. -/
structure ClientState where
  socket : Socket
  handlers : Option HandlerTable

/-- `connect` declares `let _handlers: ClientHandlers;` — uninitialized. -/
def connectInit (sock : Socket) : ClientState :=
  { socket := sock, handlers := none }

/-- The client's `setHandlersForSocket`: `_handlers = handlers;`. -/
def setHandlersForSocket (st : ClientState) (tbl : HandlerTable) :
    ClientState :=
  { st with handlers := some tbl }

/-- The client's `send`: `JSON.stringify` inside try/catch — on throw,
log and return; on success `_socket.send(serialized)` with no handling
of a transport raise. -/
def clientSend (st : ClientState) (msg : JSValue) :
    List Event × Option JSError :=
  match stringify msg with
  | none => ([Event.logged serializeErrorLog], none)
  | some str =>
    if st.socket.sendRaises then ([], some JSError.invalidState)
    else ([Event.wsSend st.socket.id str], none)

/-- The `_socket.onmessage` closure installed by the client's `connect`:
parse (catch → log and return), drop falsy values, destructure
`{key, data}`, then read `_handlers[key]` — which throws a `TypeError`
when `_handlers` is still `undefined` — return if no handler, else
invoke `handler(data, clientSocket)`. -/
def clientOnMessage (handlers : Option HandlerTable) (ev : ParseOutcome) :
    List Event × Option JSError :=
  match ev with
  | .malformed raw => ([Event.logged (parseErrorLog raw)], none)
  | .parsed v =>
    if v.isFalsy then ([], none)
    else
      match handlers with
      | none => ([], some JSError.typeError)
      | some tbl =>
        match v.getField "key" with
        | some (.str tag) =>
          if tag ∈ tbl then
            ([Event.clientHandlerInvoked tag (v.getField "data")], none)
          else ([], none)
        | _ => ([], none)

/-- A well-formed wire envelope `{key: tag, data: d}` as the message
objects of this library are shaped. -/
def envelope (tag : String) (data : JSValue) : JSValue :=
  JSValue.obj [("key", JSValue.str tag), ("data", data)]

/-- The socket ids targeted by the `wsSend` events of a trace. -/
def sendTargets (evs : List Event) : List Nat :=
  evs.filterMap fun e =>
    match e with
    | Event.wsSend i _ => some i
    | _ => none

/-! ## Basic lemmas about the registry map -/

theorem lookup_insert_self (g : GroupState) (k : String) (s : Socket) :
    lookupEntry (insertEntry g k s) k = some s := by
  induction g with
  | nil => simp [insertEntry, lookupEntry]
  | cons p rest ih =>
    obtain ⟨k1, s1⟩ := p
    by_cases h : k1 = k
    · simp [insertEntry, h, lookupEntry]
    · simp [insertEntry, h, lookupEntry, ih]

theorem lookup_erase_self (g : GroupState) (k : String) :
    lookupEntry (eraseEntry g k) k = none := by
  induction g with
  | nil => simp [eraseEntry, lookupEntry]
  | cons p rest ih =>
    obtain ⟨k1, s1⟩ := p
    by_cases h : k1 = k
    · simp [eraseEntry, h, ih]
    · simp [eraseEntry, h, lookupEntry, ih]

/-! ## Lemmas about the broadcast loop -/

theorem broadcastLoop_all_ok (sockets : List Socket) (msg : JSValue)
    (str : String) (hs : stringify msg = some str)
    (hok : ∀ s ∈ sockets, s.sendRaises = false) :
    broadcastLoop sockets msg =
      (sockets.map (fun s => Event.wsSend s.id str), none) := by
  induction sockets with
  | nil => simp [broadcastLoop]
  | cons s rest ih =>
    have hsf : s.sendRaises = false := hok s (by simp)
    have hrest : ∀ t ∈ rest, t.sendRaises = false :=
      fun t ht => hok t (by simp [ht])
    simp [broadcastLoop, hs, hsf, ih hrest]

theorem broadcastLoop_abort (pre : List Socket) (s : Socket)
    (post : List Socket) (msg : JSValue) (str : String)
    (hs : stringify msg = some str)
    (hpre : ∀ t ∈ pre, t.sendRaises = false)
    (hraise : s.sendRaises = true) :
    broadcastLoop (pre ++ s :: post) msg =
      (pre.map (fun t => Event.wsSend t.id str), some JSError.invalidState) := by
  induction pre with
  | nil => simp [broadcastLoop, hs, hraise]
  | cons t rest ih =>
    have htf : t.sendRaises = false := hpre t (by simp)
    have hrest : ∀ u ∈ rest, u.sendRaises = false :=
      fun u hu => hpre u (by simp [hu])
    simp [broadcastLoop, hs, htf, ih hrest]

/-! ## Claim theorems -/

/-- C1, counterexample: `addSocket` does not reject a duplicate key.
Registering `"a"` twice (no lifecycle callbacks configured) succeeds
both times — there is no failure channel at all, the second call emits
no events — and the second socket replaces the first in the registry,
so the existing entry is not preserved. -/
theorem claim_C1_counterexample :
    getSocket (addSocket ⟨false, false, false⟩
        (addSocket ⟨false, false, false⟩ [] "a" ⟨1, false⟩).1
        "a" ⟨2, false⟩).1 "a" = some ⟨2, false⟩ ∧
    getSocket (addSocket ⟨false, false, false⟩
        (addSocket ⟨false, false, false⟩ [] "a" ⟨1, false⟩).1
        "a" ⟨2, false⟩).1 "a" ≠ some ⟨1, false⟩ ∧
    (addSocket ⟨false, false, false⟩
        (addSocket ⟨false, false, false⟩ [] "a" ⟨1, false⟩).1
        "a" ⟨2, false⟩).2 = [] := by
  refine ⟨rfl, ?_, rfl⟩
  intro h
  exact absurd (Option.some.inj h) (by decide)

/-- C1, amended: two successive `addSocket` calls with the same key both
succeed — no `DuplicateKey` rejection exists — and the second silently
overwrites: afterwards the registry maps the key to the second socket,
and (with no `onError` callback configured) neither call closes
anything, so the first connection is orphaned rather than rejected. -/
theorem claim_C1_duplicate_add_overwrites (opts : CreateSocketOpts)
    (g : GroupState) (k : String) (s1 s2 : Socket)
    (h : opts.onError = false) :
    getSocket (addSocket opts (addSocket opts g k s1).1 k s2).1 k = some s2 ∧
    (addSocket opts g k s1).2 = [] ∧
    (addSocket opts (addSocket opts g k s1).1 k s2).2 = [] := by
  refine ⟨?_, ?_, ?_⟩ <;>
    simp [addSocket, h, getSocket, lookup_insert_self]

theorem claim_C1_duplicate_add_overwrites_witness :
    (⟨false, false, false⟩ : CreateSocketOpts).onError = false ∧
    getSocket (addSocket ⟨false, false, false⟩
        (addSocket ⟨false, false, false⟩ [] "a" ⟨1, false⟩).1
        "a" ⟨2, false⟩).1 "a" = some ⟨2, false⟩ :=
  ⟨rfl, (claim_C1_duplicate_add_overwrites ⟨false, false, false⟩ [] "a"
    ⟨1, false⟩ ⟨2, false⟩ rfl).1⟩

/-- C4: `removeSocket` on a present key closes the underlying socket
(the only event is its `close`) and evicts the entry, so a subsequent
`getSocket` returns `none`; on an absent key it is a no-op returning the
state unchanged with no events; running it a second time after a remove
— as the re-entrant eviction from a socket's own close notification does
— changes nothing and closes nothing, and a close notification arriving
after the removal emits no further `close`. -/
theorem claim_C4_remove_closes_and_evicts (g : GroupState) (k : String) :
    (∀ s, lookupEntry g k = some s →
      getSocket (removeSocket g k).1 k = none ∧
      (removeSocket g k).2 = [Event.closed s.id]) ∧
    (lookupEntry g k = none → removeSocket g k = (g, [])) ∧
    removeSocket (removeSocket g k).1 k = ((removeSocket g k).1, []) ∧
    (∀ opts : CreateSocketOpts, opts.onClose = true →
      oncloseNotification opts (removeSocket g k).1 k =
        ((removeSocket g k).1, [Event.hostOnClose k])) := by
  refine ⟨?_, ?_, ?_, ?_⟩
  · intro s hs
    simp [removeSocket, hs, getSocket, lookup_erase_self]
  · intro hn
    simp [removeSocket, hn]
  · cases hl : lookupEntry g k with
    | none => simp [removeSocket, hl]
    | some s => simp [removeSocket, hl, lookup_erase_self]
  · intro opts hc
    cases hl : lookupEntry g k with
    | none => simp [oncloseNotification, hc, removeSocket, hl]
    | some s =>
      simp [oncloseNotification, hc, removeSocket, hl, lookup_erase_self]

theorem claim_C4_remove_closes_and_evicts_witness :
    lookupEntry [("a", (⟨7, false⟩ : Socket))] "a" = some ⟨7, false⟩ ∧
    getSocket (removeSocket [("a", (⟨7, false⟩ : Socket))] "a").1 "a" = none ∧
    (removeSocket [("a", (⟨7, false⟩ : Socket))] "a").2 =
      [Event.closed 7] ∧
    lookupEntry ([] : GroupState) "b" = none ∧
    removeSocket ([] : GroupState) "b" = ([], []) :=
  ⟨rfl,
   ((claim_C4_remove_closes_and_evicts [("a", ⟨7, false⟩)] "a").1
      ⟨7, false⟩ rfl).1,
   ((claim_C4_remove_closes_and_evicts [("a", ⟨7, false⟩)] "a").1
      ⟨7, false⟩ rfl).2,
   rfl,
   (claim_C4_remove_closes_and_evicts [] "b").2.1 rfl⟩

/-- C5: immediately after `addSocket k sock`, `getSocket k` returns the
very socket that was registered (the same `Socket` value, identity
included), for every prior registry state and every callback
configuration; `getSocket` itself is a pure lookup — it takes the state
and returns only an `Option Socket`, mirroring a source body that
performs no mutation. -/
theorem claim_C5_get_after_add (opts : CreateSocketOpts) (g : GroupState)
    (k : String) (sock : Socket) :
    getSocket (addSocket opts g k sock).1 k = some sock ∧
    getSocket g k = lookupEntry g k := by
  constructor
  · by_cases h : opts.onError <;>
      simp [addSocket, h, getSocket, lookup_insert_self]
  · cases hl : lookupEntry g k <;> simp [getSocket, hl]

/-- C9: when `createSocketGroup` was given an `onError` callback,
`addSocket` unconditionally runs `removeSocket(key)` before storing the
new socket — if the key was occupied, the old socket is closed and the
entry evicted before the store (and the no-op case when the key was free
also goes through `removeSocket`); when no `onError` callback was given,
`addSocket` performs no eviction: it emits no events and merely
overwrites the entry. -/
theorem claim_C9_onError_triggers_eviction (g : GroupState) (k : String)
    (sock : Socket) (o1 o2 : Bool) :
    (∀ old, lookupEntry g k = some old →
      addSocket ⟨o1, o2, true⟩ g k sock =
        (insertEntry (eraseEntry g k) k sock, [Event.closed old.id])) ∧
    (lookupEntry g k = none →
      addSocket ⟨o1, o2, true⟩ g k sock = (insertEntry g k sock, [])) ∧
    addSocket ⟨o1, o2, false⟩ g k sock = (insertEntry g k sock, []) := by
  refine ⟨?_, ?_, ?_⟩
  · intro old hold
    simp [addSocket, removeSocket, hold]
  · intro hn
    simp [addSocket, removeSocket, hn]
  · simp [addSocket]

theorem claim_C9_onError_triggers_eviction_witness :
    lookupEntry [("a", (⟨3, false⟩ : Socket))] "a" = some ⟨3, false⟩ ∧
    addSocket ⟨false, false, true⟩ [("a", ⟨3, false⟩)] "a" ⟨4, false⟩ =
      ([("a", ⟨4, false⟩)], [Event.closed 3]) :=
  ⟨rfl, by
    have h := (claim_C9_onError_triggers_eviction
      [("a", ⟨3, false⟩)] "a" ⟨4, false⟩ false false).1 ⟨3, false⟩ rfl
    simpa [eraseEntry, insertEntry] using h⟩

/-- C2, counterexample: broadcast is not failure-isolated. With sockets
`"a"` (whose transport `send` raises) and `"b"` registered, broadcasting
`"ping"` performs no send at all — in particular the still-registered,
healthy recipient `"b"` (socket id 2) receives nothing — and the raise
propagates out of `broadcast`. -/
theorem claim_C2_counterexample :
    lookupEntry [("a", (⟨1, true⟩ : Socket)), ("b", ⟨2, false⟩)] "b" =
      some ⟨2, false⟩ ∧
    broadcast [("a", ⟨1, true⟩), ("b", ⟨2, false⟩)] (JSValue.str "ping") =
      ([], some JSError.invalidState) := by
  exact ⟨rfl, rfl⟩

/-- C2, amended: one raising send aborts the loop. If the registry is
any prefix of healthy connections, then a connection whose send raises,
then any suffix, broadcasting a serializable message delivers exactly to
the prefix, the exception escapes `broadcast`, and the raising
connection and every later one receive nothing. -/
theorem claim_C2_broadcast_aborts_on_raise (gpre gpost : GroupState)
    (k : String) (s : Socket) (msg : JSValue) (str : String)
    (hs : stringify msg = some str)
    (hpre : ∀ p ∈ gpre, p.2.sendRaises = false)
    (hraise : s.sendRaises = true) :
    broadcast (gpre ++ (k, s) :: gpost) msg =
      (gpre.map (fun p => Event.wsSend p.2.id str),
       some JSError.invalidState) := by
  have hpre2 : ∀ t ∈ gpre.map Prod.snd, t.sendRaises = false := by
    intro t ht
    obtain ⟨p, hp, rfl⟩ := List.mem_map.mp ht
    exact hpre p hp
  have h := broadcastLoop_abort (gpre.map Prod.snd) s (gpost.map Prod.snd)
    msg str hs hpre2 hraise
  simpa [broadcast, List.map_map, Function.comp] using h

theorem claim_C2_broadcast_aborts_on_raise_witness :
    stringify (JSValue.str "ping") = some "\"ping\"" ∧
    broadcast [("a", ⟨1, false⟩), ("b", ⟨2, true⟩), ("c", ⟨3, false⟩)]
        (JSValue.str "ping") =
      ([Event.wsSend 1 "\"ping\""], some JSError.invalidState) :=
  ⟨rfl, by
    have h := claim_C2_broadcast_aborts_on_raise [("a", ⟨1, false⟩)]
      [("c", ⟨3, false⟩)] "b" ⟨2, true⟩ (JSValue.str "ping") "\"ping\""
      rfl (by decide) rfl
    simpa using h⟩

/-- C3: when every registered connection's transport accepts the send
and the message serializes, `broadcast` raises nothing, performs exactly
the sends of the registered sockets in registry order — each carrying
the same serialized envelope — and (the socket ids being distinct) every
connection registered at call start is targeted exactly once. -/
theorem claim_C3_broadcast_delivers_once (g : GroupState) (msg : JSValue)
    (str : String) (hs : stringify msg = some str)
    (hok : ∀ p ∈ g, p.2.sendRaises = false)
    (hnd : (g.map (fun p => p.2.id)).Nodup) :
    (broadcast g msg).2 = none ∧
    (broadcast g msg).1 = g.map (fun p => Event.wsSend p.2.id str) ∧
    ∀ p ∈ g, (sendTargets (broadcast g msg).1).count p.2.id = 1 := by
  have hok2 : ∀ t ∈ g.map Prod.snd, t.sendRaises = false := by
    intro t ht
    obtain ⟨p, hp, rfl⟩ := List.mem_map.mp ht
    exact hok p hp
  have h := broadcastLoop_all_ok (g.map Prod.snd) msg str hs hok2
  have hev : (broadcast g msg).1 = g.map (fun p => Event.wsSend p.2.id str) := by
    simp [broadcast, h, List.map_map, Function.comp]
  refine ⟨by simp [broadcast, h], hev, ?_⟩
  intro p hp
  have htargets : sendTargets (broadcast g msg).1 = g.map (fun p => p.2.id) := by
    rw [hev]
    simp only [sendTargets, List.filterMap_map]
    show List.filterMap (some ∘ fun p => p.2.id) g = _
    rw [List.filterMap_eq_map]
  rw [htargets]
  exact List.count_eq_one_of_mem hnd (List.mem_map_of_mem _ hp)

theorem claim_C3_broadcast_delivers_once_witness :
    stringify (envelope "ping" JSValue.null) =
      some "\x7b\"key\":\"ping\",\"data\":null,\x7d" ∧
    broadcast [("a", ⟨1, false⟩), ("b", ⟨2, false⟩), ("c", ⟨3, false⟩)]
        (envelope "ping" JSValue.null) =
      ([Event.wsSend 1 "\x7b\"key\":\"ping\",\"data\":null,\x7d",
        Event.wsSend 2 "\x7b\"key\":\"ping\",\"data\":null,\x7d",
        Event.wsSend 3 "\x7b\"key\":\"ping\",\"data\":null,\x7d"], none) ∧
    (sendTargets (broadcast
        [("a", ⟨1, false⟩), ("b", ⟨2, false⟩), ("c", ⟨3, false⟩)]
        (envelope "ping" JSValue.null)).1).count 2 = 1 := by
  have h := claim_C3_broadcast_delivers_once
    [("a", ⟨1, false⟩), ("b", ⟨2, false⟩), ("c", ⟨3, false⟩)]
    (envelope "ping" JSValue.null) "\x7b\"key\":\"ping\",\"data\":null,\x7d"
    rfl (by decide) (by decide)
  refine ⟨rfl, ?_, ?_⟩
  · have h1 := h.1
    have h2 := h.2.1
    exact Prod.ext h2 h1
  · exact h.2.2 ("b", ⟨2, false⟩) (by decide)

/-- C6: a payload on which `JSON.parse` throws is logged and discarded
by both the server-side and client-side message loops: the only emitted
event is the `console.error`, no handler is invoked with any value, no
exception escapes the dispatch, and the connection is not closed —
whatever the handler table (even the client's still-unset one). -/
theorem claim_C6_malformed_payload_dropped (tbl : HandlerTable)
    (hOpt : Option HandlerTable) (sockKey raw : String) :
    serverOnMessage tbl sockKey (ParseOutcome.malformed raw) =
      [Event.logged (parseErrorLog raw)] ∧
    clientOnMessage hOpt (ParseOutcome.malformed raw) =
      ([Event.logged (parseErrorLog raw)], none) :=
  ⟨rfl, rfl⟩

/-- C7: when `JSON.stringify` cannot represent the message, the client's
`send` aborts synchronously with only the `console.error` event — no
socket write, no close, no escaping exception — and the registry's
targeted `send` to an occupied key performs no write and raises the
`TypeError` synchronously to its caller; in both cases the connection
receives no `close`, so it remains open. -/
theorem claim_C7_encode_failure_aborts_send (st : ClientState)
    (g : GroupState) (k : String) (s : Socket) (msg : JSValue)
    (henc : stringify msg = none) (hk : lookupEntry g k = some s) :
    clientSend st msg = ([Event.logged serializeErrorLog], none) ∧
    groupSend g k msg = ([], some JSError.typeError) := by
  constructor
  · simp [clientSend, henc]
  · simp [groupSend, hk, henc]

theorem claim_C7_encode_failure_aborts_send_witness :
    stringify (JSValue.bigintVal 1) = none ∧
    clientSend (connectInit ⟨5, false⟩) (JSValue.bigintVal 1) =
      ([Event.logged serializeErrorLog], none) ∧
    groupSend [("a", ⟨9, false⟩)] "a" (JSValue.bigintVal 1) =
      ([], some JSError.typeError) := by
  have h := claim_C7_encode_failure_aborts_send (connectInit ⟨5, false⟩)
    [("a", ⟨9, false⟩)] "a" ⟨9, false⟩ (JSValue.bigintVal 1) rfl rfl
  exact ⟨rfl, h.1, h.2⟩

/-- C8: a well-formed envelope whose tag has no entry in the bound
handler table is silently ignored by both message loops: no events at
all are emitted (no handler invocation, no log, no close) and no
exception is raised, so the connection stays open. -/
theorem claim_C8_unknown_tag_ignored (tbl : HandlerTable)
    (sockKey tag : String) (data : JSValue) (h : tag ∉ tbl) :
    serverOnMessage tbl sockKey (ParseOutcome.parsed (envelope tag data)) =
      [] ∧
    clientOnMessage (some tbl) (ParseOutcome.parsed (envelope tag data)) =
      ([], none) := by
  constructor
  · simp [serverOnMessage, envelope, JSValue.isFalsy, JSValue.getField,
      JSValue.getField.lookupField, h]
  · simp [clientOnMessage, envelope, JSValue.isFalsy, JSValue.getField,
      JSValue.getField.lookupField, h]

theorem claim_C8_unknown_tag_ignored_witness :
    "unknown_tag" ∉ (["ping", "update_foo"] : HandlerTable) ∧
    serverOnMessage ["ping", "update_foo"] "a"
      (ParseOutcome.parsed (envelope "unknown_tag" (JSValue.obj []))) = [] ∧
    clientOnMessage (some ["ping", "update_foo"])
      (ParseOutcome.parsed (envelope "unknown_tag" (JSValue.obj []))) =
      ([], none) := by
  have h := claim_C8_unknown_tag_ignored ["ping", "update_foo"] "a"
    "unknown_tag" (JSValue.obj []) (by decide)
  exact ⟨by decide, h.1, h.2⟩

/-- C10: on the client, a well-formed envelope arriving before
`setHandlersForSocket` has ever run hits the uninitialized `_handlers`
variable: the dispatch raises a `TypeError` (from reading a property of
`undefined`) instead of silently ignoring the message; once
`setHandlersForSocket` has run with any table, the same dispatch raises
nothing. -/
theorem claim_C10_dispatch_requires_handlers (sock : Socket)
    (tag : String) (data : JSValue) (tbl : HandlerTable) :
    clientOnMessage (connectInit sock).handlers
      (ParseOutcome.parsed (envelope tag data)) =
      ([], some JSError.typeError) ∧
    (clientOnMessage (setHandlersForSocket (connectInit sock) tbl).handlers
      (ParseOutcome.parsed (envelope tag data))).2 = none := by
  constructor
  · simp [connectInit, clientOnMessage, envelope, JSValue.isFalsy]
  · by_cases h : tag ∈ tbl <;>
      simp [connectInit, setHandlersForSocket, clientOnMessage, envelope,
        JSValue.isFalsy, JSValue.getField, JSValue.getField.lookupField, h]

end Broadcaster
